import Mathlib

/-!
# Verification of `apifixer.py`

A shallow embedding of the retry decorator, the scoped API client and the
orchestration routine of `src/apifixer.py`, together with proofs of the
behavioural properties claimed for them.

Modelling conventions:

* An asynchronous fallible operation is modelled as a function
  `Nat → Except E A` from the (1-based) attempt number to its outcome;
  raising an exception is `Except.error`, returning a value is `Except.ok`.
* Durations are rationals (`ℚ`); `asyncio.sleep d` is recorded in a trace
  rather than executed.
* The decorators `log_calls` and `timed` only print and measure wall-clock
  time; they do not alter arguments, results or exceptions, so they are
  identities in the embedding.
-/

set_option autoImplicit false

namespace ApiFixer

/-- Result of one run of the wrapper produced by `retry_async_safe`:
the final outcome (`Except.error none` models Python's `raise last_err`
with `last_err = None`, which raises a `TypeError`), the number of times
the wrapped operation was invoked, and the list of delays passed to
`asyncio.sleep` between attempts, in order. -/
structure RetryTrace (E A : Type) where
  outcome : Except (Option E) A
  calls : Nat
  sleeps : List ℚ

/-- The loop body of `retry_async_safe`'s `wrapper` (`src/apifixer.py`
lines 70–82): `fuel` is the number of remaining iterations of
`for attempt in range(1, retries + 1)`, `attempt` the current 1-based
attempt number, `d` the current `_delay`, `lastErr` the current
`last_err`.  On failure with `attempt < retries` (i.e. `fuel > 1`) the
loop sleeps `_delay`, multiplies `_delay` by `backoff` and retries. -/
def retryAux {E A : Type} (op : Nat → Except E A) (backoff : ℚ) :
    Nat → Nat → ℚ → Option E → RetryTrace E A
  | 0, _, _, lastErr => ⟨.error lastErr, 0, []⟩
  | fuel + 1, attempt, d, _ =>
    match op attempt with
    | .ok a => ⟨.ok a, 1, []⟩
    | .error e =>
      if fuel = 0 then
        ⟨.error (some e), 1, []⟩
      else
        let r := retryAux op backoff fuel (attempt + 1) (d * backoff) (some e)
        ⟨r.outcome, r.calls + 1, d :: r.sleeps⟩

/-- `retry_async_safe(retries, delay, backoff)` applied to `op`
(`src/apifixer.py` lines 66–84; Python defaults are
`retries=3, delay=0.5, backoff=2.0`): runs up to `retries` attempts
starting at attempt 1 with initial `_delay = delay`. -/
def retry_async_safe {E A : Type} (retries : Nat) (delay backoff : ℚ)
    (op : Nat → Except E A) : RetryTrace E A :=
  retryAux op backoff retries 1 delay none

/-- `Except` outcome test (does the attempt succeed?). -/
def isOk {E A : Type} : Except E A → Bool
  | .ok _ => true
  | .error _ => false

/-- Error taxonomy of one `get_json` attempt, following the exceptions the
Python code can raise: `RuntimeError("APIClient not initialized...")`
(`src/apifixer.py` line 131), and the transport/status/decode errors of
`httpx` (`resp = await self._client.get`, `resp.raise_for_status()`,
`resp.json()`). -/
inductive APIErr
  | notInit
  | transportError (msg : String)
  | httpStatusError (code : Nat)
  | decodeError (msg : String)
deriving DecidableEq, Repr

/-- Resource events observed during a run: acquiring and releasing a
pooled `httpx.AsyncClient`, identified by a handle id. -/
inductive Event
  | opened (h : Nat)
  | close (h : Nat)
deriving DecidableEq, Repr

/-- `str.rstrip("/")`: remove all trailing `'/'` characters. -/
def rstripSlashes (s : String) : String :=
  ⟨(s.data.reverse.dropWhile (fun c => c == '/')).reverse⟩

/-- `APIClient` state: `base_url`, `timeout`, and the optional
`httpx.AsyncClient` handle `_client` (`None` ↦ `none`). -/
structure APIClient where
  base_url : String
  timeout : ℚ
  client : Option Nat
deriving DecidableEq, Repr

/-- `APIClient.__init__` (`src/apifixer.py` lines 96–99):
stores `base_url.rstrip("/")` and `timeout`, sets `_client = None`. -/
def APIClient.init (base_url : String) (timeout : ℚ) : APIClient :=
  ⟨rstripSlashes base_url, timeout, none⟩

/-- `APIClient.__aenter__` (lines 101–103): creates the
`httpx.AsyncClient` (a fresh handle) and stores it in `_client`. -/
def APIClient.aenter (c : APIClient) (handle : Nat) : APIClient :=
  { c with client := some handle }

/-- `APIClient.__aexit__` (lines 112–115): if `_client` is present,
close it (emit a `close` event) and set `_client = None`; otherwise do
nothing.  Returns the new state and the events emitted. -/
def APIClient.aexit (c : APIClient) : APIClient × List Event :=
  match c.client with
  | some h => ({ c with client := none }, [Event.close h])
  | none => (c, [])

/-- `APIClient.get_json` (lines 126–134) with its decorator stack: the
body raises `RuntimeError` when `_client is None`, otherwise performs the
transport request (`get` / `raise_for_status` / `json`, abstracted as
`transport : attempt number → outcome`); the whole body is wrapped by
`@retry_async_safe(retries=3, delay=0.3)` (so `backoff = 2.0`), with
`timed` and `log_calls` as semantic identities. -/
def get_json {A : Type} (c : APIClient) (transport : Nat → Except APIErr A) :
    RetryTrace APIErr A :=
  retry_async_safe 3 (3 / 10) 2 (fun attempt =>
    match c.client with
    | none => .error .notInit
    | some _ => transport attempt)

/-- `async with APIClient(base_url, timeout) as c: body` — enter the
scope (acquire `handle`), run the body, and run `__aexit__`
unconditionally (Python runs it on both normal and exceptional exit). -/
def withClient {α : Type} (base_url : String) (timeout : ℚ) (handle : Nat)
    (body : APIClient → α × List Event) : α × List Event :=
  let c := (APIClient.init base_url timeout).aenter handle
  let r := body c
  let closed := c.aexit
  (r.1, Event.opened handle :: (r.2 ++ closed.2))

/-- `await asyncio.gather(t1, t2, t3, t4, t5)` with
`return_exceptions=False` (line 150–152), unpacked into a 5-tuple: if
every task succeeded, the results in submission order; otherwise the
failing task's exception, propagated unchanged. -/
def gather5 {E A : Type} (o1 o2 o3 o4 o5 : Except E A) :
    Except E (A × A × A × A × A) :=
  match o1 with
  | .error e => .error e
  | .ok a1 =>
    match o2 with
    | .error e => .error e
    | .ok a2 =>
      match o3 with
      | .error e => .error e
      | .ok a3 =>
        match o4 with
        | .error e => .error e
        | .ok a4 =>
          match o5 with
          | .error e => .error e
          | .ok a5 => .ok (a1, a2, a3, a4, a5)

/-- `fetch_demo` (lines 139–152): two nested `async with APIClient`
scopes (handles 0 and 1), five `get_json` calls (three on the outer
client, two on the inner), gathered into one 5-tuple.  Each call is
parametrised by its transport behaviour.  Returns the gathered result
(or the propagated error) together with the resource-event trace. -/
def fetch_demo {A : Type}
    (tUsers tPost tComments tSlow1 tSlow2 : Nat → Except APIErr A) :
    Except (Option APIErr) (A × A × A × A × A) × List Event :=
  withClient "https://jsonplaceholder.typicode.com" 10 0 (fun jp =>
    withClient "https://httpbin.org" 10 1 (fun hb =>
      (gather5 (get_json jp tUsers).outcome (get_json jp tPost).outcome
        (get_json jp tComments).outcome (get_json hb tSlow1).outcome
        (get_json hb tSlow2).outcome, [])))

/-! ### Step lemmas for the retry loop -/

theorem retryAux_zero {E A : Type} (op : Nat → Except E A) (b : ℚ)
    (a : Nat) (d : ℚ) (le : Option E) :
    retryAux op b 0 a d le = ⟨.error le, 0, []⟩ := rfl

theorem retryAux_ok {E A : Type} (op : Nat → Except E A) (b : ℚ)
    (n a : Nat) (d : ℚ) (le : Option E) (v : A) (h : op a = .ok v) :
    retryAux op b (n + 1) a d le = ⟨.ok v, 1, []⟩ := by
  unfold retryAux
  rw [h]

theorem retryAux_err_last {E A : Type} (op : Nat → Except E A) (b : ℚ)
    (a : Nat) (d : ℚ) (le : Option E) (e : E) (h : op a = .error e) :
    retryAux op b 1 a d le = ⟨.error (some e), 1, []⟩ := by
  unfold retryAux
  rw [h]
  rfl

theorem retryAux_err_step {E A : Type} (op : Nat → Except E A) (b : ℚ)
    (n a : Nat) (d : ℚ) (le : Option E) (e : E)
    (hn : n ≠ 0) (h : op a = .error e) :
    retryAux op b (n + 1) a d le =
      ⟨(retryAux op b n (a + 1) (d * b) (some e)).outcome,
       (retryAux op b n (a + 1) (d * b) (some e)).calls + 1,
       d :: (retryAux op b n (a + 1) (d * b) (some e)).sleeps⟩ := by
  conv_lhs => rw [retryAux]
  rw [h]
  simp [hn]

/-- Prepending the current delay to the geometric schedule started at
`d * b` gives the geometric schedule started at `d`. -/
theorem geom_schedule_cons (d b : ℚ) (m : Nat) (hm : 1 ≤ m) :
    d :: (List.range (m - 1)).map (fun i => d * b * b ^ i)
      = (List.range m).map (fun i => d * b ^ i) := by
  obtain ⟨m', rfl⟩ : ∃ m', m = m' + 1 := ⟨m - 1, by omega⟩
  rw [List.range_succ_eq_map]
  simp only [List.map_cons, List.map_map, Nat.add_sub_cancel]
  congr 1
  · simp
  · apply List.map_congr_left
    intro i _
    simp [Function.comp, pow_succ]
    ring

theorem retryAux_calls_pos {E A : Type} (op : Nat → Except E A) (b : ℚ) :
    ∀ (n a : Nat) (d : ℚ) (le : Option E), 1 ≤ n →
      1 ≤ (retryAux op b n a d le).calls := by
  intro n a d le hn
  match n, hn with
  | n + 1, _ =>
    cases h : op a with
    | ok v => rw [retryAux_ok op b n a d le v h]
    | error e =>
      by_cases hn0 : n = 0
      · subst hn0
        rw [retryAux_err_last op b a d le e h]
      · rw [retryAux_err_step op b n a d le e hn0 h]
        exact Nat.le_add_left 1 _

/-- If the operation fails on the first `n - 1` attempts of the window
`a, a+1, …` and succeeds on the `n`-th, the loop returns that success,
makes exactly `n` calls and sleeps the geometric schedule
`d, d*b, …, d*b^(n-2)`. -/
theorem retryAux_success {E A : Type} (op : Nat → Except E A) (b : ℚ) (v : A) :
    ∀ (n : Nat), ∀ (a : Nat) (d : ℚ) (le : Option E), 1 ≤ n →
      (∀ j, j + 1 < n → isOk (op (a + j)) = false) →
      op (a + (n - 1)) = .ok v →
      retryAux op b n a d le =
        ⟨.ok v, n, (List.range (n - 1)).map (fun i => d * b ^ i)⟩ := by
  intro n
  induction n with
  | zero => intro a d le h1; omega
  | succ m ih =>
    intro a d le _ hfail hsucc
    by_cases hm : m = 0
    · subst hm
      have hs : op a = .ok v := by simpa using hsucc
      rw [retryAux_ok op b 0 a d le v hs]
      rfl
    · have h0 : isOk (op a) = false := by simpa using hfail 0 (by omega)
      obtain ⟨e, he⟩ : ∃ e, op a = .error e := by
        cases hop : op a with
        | ok w => rw [hop] at h0; simp [isOk] at h0
        | error e => exact ⟨e, rfl⟩
      rw [retryAux_err_step op b m a d le e hm he]
      rw [ih (a + 1) (d * b) (some e) (by omega)
        (fun j hj => by
          have := hfail (j + 1) (by omega)
          simpa [Nat.add_assoc, Nat.add_comm 1 j] using this)
        (by
          have hidx : a + 1 + (m - 1) = a + (m + 1 - 1) := by omega
          rw [hidx]; exact hsucc)]
      dsimp only
      rw [Nat.add_sub_cancel, geom_schedule_cons d b m (by omega)]

/-- If the operation fails on all `n` attempts of the window
`a, a+1, …, a+n-1` with errors given by `errf`, the loop raises the error
of the last attempt, makes exactly `n` calls and sleeps the geometric
schedule. -/
theorem retryAux_allFail {E A : Type} (op : Nat → Except E A) (b : ℚ)
    (errf : Nat → E) :
    ∀ (n : Nat), ∀ (a : Nat) (d : ℚ) (le : Option E), 1 ≤ n →
      (∀ j, j < n → op (a + j) = .error (errf (a + j))) →
      retryAux op b n a d le =
        ⟨.error (some (errf (a + (n - 1)))), n,
         (List.range (n - 1)).map (fun i => d * b ^ i)⟩ := by
  intro n
  induction n with
  | zero => intro a d le h1; omega
  | succ m ih =>
    intro a d le _ hfail
    have he : op a = .error (errf a) := by simpa using hfail 0 (by omega)
    by_cases hm : m = 0
    · subst hm
      rw [retryAux_err_last op b a d le (errf a) he]
      rfl
    · rw [retryAux_err_step op b m a d le (errf a) hm he]
      rw [ih (a + 1) (d * b) (some (errf a)) (by omega)
        (fun j hj => by
          have := hfail (j + 1) (by omega)
          simpa [Nat.add_assoc, Nat.add_comm 1 j] using this)]
      have hidx : a + 1 + (m - 1) = a + (m + 1 - 1) := by omega
      dsimp only
      rw [hidx, Nat.add_sub_cancel, geom_schedule_cons d b m (by omega)]

/-- In every run, the recorded sleeps are exactly the geometric schedule
`d, d*b, d*b², …` of length `calls - 1`. -/
theorem retryAux_sleeps_schedule {E A : Type} (op : Nat → Except E A) (b : ℚ) :
    ∀ (n : Nat), ∀ (a : Nat) (d : ℚ) (le : Option E),
      (retryAux op b n a d le).sleeps
        = (List.range ((retryAux op b n a d le).calls - 1)).map
            (fun i => d * b ^ i) := by
  intro n
  induction n with
  | zero => intro a d le; rfl
  | succ m ih =>
    intro a d le
    cases h : op a with
    | ok v =>
      rw [retryAux_ok op b m a d le v h]
      rfl
    | error e =>
      by_cases hm : m = 0
      · subst hm
        rw [retryAux_err_last op b a d le e h]
        rfl
      · rw [retryAux_err_step op b m a d le e hm h]
        dsimp only
        rw [ih (a + 1) (d * b) (some e), Nat.add_sub_cancel]
        exact geom_schedule_cons d b _
          (retryAux_calls_pos op b m (a + 1) (d * b) (some e) (by omega))

/-- When a run with at least one attempt ends in a raised error, that
error is exactly the one produced by the last attempt made. -/
theorem retryAux_error_is_last {E A : Type} (op : Nat → Except E A) (b : ℚ) :
    ∀ (n : Nat), ∀ (a : Nat) (d : ℚ) (le : Option E) (e : E), 1 ≤ n →
      (retryAux op b n a d le).outcome = .error (some e) →
      op (a + ((retryAux op b n a d le).calls - 1)) = .error e := by
  intro n
  induction n with
  | zero => intro a d le e h1; omega
  | succ m ih =>
    intro a d le e _ hout
    cases h : op a with
    | ok v =>
      rw [retryAux_ok op b m a d le v h] at hout
      exact absurd hout (by simp)
    | error e' =>
      by_cases hm : m = 0
      · subst hm
        rw [retryAux_err_last op b a d le e' h] at hout ⊢
        obtain rfl : e' = e := by simpa using hout
        simpa using h
      · rw [retryAux_err_step op b m a d le e' hm h] at hout ⊢
        dsimp only at hout ⊢
        have hrec := ih (a + 1) (d * b) (some e') e (by omega) hout
        have hpos := retryAux_calls_pos op b m (a + 1) (d * b) (some e') (by omega)
        have hidx : a + 1 + ((retryAux op b m (a + 1) (d * b) (some e')).calls - 1)
            = a + ((retryAux op b m (a + 1) (d * b) (some e')).calls + 1 - 1) := by
          omega
        rw [← hidx]
        exact hrec

/-- The number of calls and the sleep schedule depend only on the
success/failure pattern of the attempts, never on the kind or payload of
the errors raised. -/
theorem retryAux_pattern {E A : Type} (op1 op2 : Nat → Except E A) (b : ℚ)
    (hp : ∀ k, isOk (op1 k) = isOk (op2 k)) :
    ∀ (n : Nat), ∀ (a : Nat) (d : ℚ) (le1 le2 : Option E),
      (retryAux op1 b n a d le1).calls = (retryAux op2 b n a d le2).calls ∧
      (retryAux op1 b n a d le1).sleeps = (retryAux op2 b n a d le2).sleeps := by
  intro n
  induction n with
  | zero => intro a d le1 le2; exact ⟨rfl, rfl⟩
  | succ m ih =>
    intro a d le1 le2
    cases h1 : op1 a with
    | ok v =>
      obtain ⟨w, h2⟩ : ∃ w, op2 a = .ok w := by
        have hk := hp a
        rw [h1] at hk
        cases h2 : op2 a with
        | ok w => exact ⟨w, rfl⟩
        | error e => rw [h2] at hk; simp [isOk] at hk
      rw [retryAux_ok op1 b m a d le1 v h1, retryAux_ok op2 b m a d le2 w h2]
      exact ⟨rfl, rfl⟩
    | error e1 =>
      obtain ⟨e2, h2⟩ : ∃ e2, op2 a = .error e2 := by
        have hk := hp a
        rw [h1] at hk
        cases h2 : op2 a with
        | ok w => rw [h2] at hk; simp [isOk] at hk
        | error e2 => exact ⟨e2, rfl⟩
      by_cases hm : m = 0
      · subst hm
        rw [retryAux_err_last op1 b a d le1 e1 h1,
          retryAux_err_last op2 b a d le2 e2 h2]
        exact ⟨rfl, rfl⟩
      · rw [retryAux_err_step op1 b m a d le1 e1 hm h1,
          retryAux_err_step op2 b m a d le2 e2 hm h2]
        dsimp only
        obtain ⟨hc, hs⟩ := ih (a + 1) (d * b) (some e1) (some e2)
        exact ⟨by rw [hc], by rw [hs]⟩

/-! ### Concrete operations used by the witnesses -/

/-- Attempts 1 and 2 fail with a transport error, attempt 3 succeeds. -/
def opFlaky : Nat → Except APIErr Nat :=
  fun k => if k < 3 then .error (.transportError "conn reset") else .ok 7

/-- Every attempt fails with an HTTP status error naming the attempt. -/
def opStatus : Nat → Except APIErr Nat :=
  fun k => .error (.httpStatusError (500 + k))

/-- Every attempt fails with a transport error. -/
def opTransportFail : Nat → Except APIErr Nat :=
  fun _ => .error (.transportError "conn reset")

/-- Every attempt fails with a JSON decode error. -/
def opDecodeFail : Nat → Except APIErr Nat :=
  fun _ => .error (.decodeError "bad json")

/-- Transport that always succeeds with value `v`. -/
def tOk (v : Nat) : Nat → Except APIErr Nat := fun _ => .ok v

/-- Transport that always fails with a transport error. -/
def tBoom : Nat → Except APIErr Nat := fun _ => .error (.transportError "boom")

/-! ### Claim theorems about the retry policy -/

/-- **C1.** For every `maxAttempts = N ≥ 1` and every operation that fails
on attempts `1..N-1` and succeeds on attempt `N`, the wrapper produced by
`retry_async_safe` returns the success value of attempt `N`, invokes the
operation exactly `N` times, and performs no further attempts after the
success (the trace ends at call `N`, with only the `N - 1` backoff sleeps
between the attempts). -/
theorem retry_success_at_attempt_N {E A : Type} (N : Nat) (d b : ℚ)
    (op : Nat → Except E A) (v : A) (hN : 1 ≤ N)
    (hfail : ∀ k, 1 ≤ k → k < N → isOk (op k) = false)
    (hsucc : op N = .ok v) :
    retry_async_safe N d b op
      = ⟨.ok v, N, (List.range (N - 1)).map (fun i => d * b ^ i)⟩ := by
  unfold retry_async_safe
  refine retryAux_success op b v N 1 d none hN ?_ ?_
  · intro j hj
    have := hfail (1 + j) (by omega) (by omega)
    simpa using this
  · have h1 : 1 + (N - 1) = N := by omega
    rw [h1]
    exact hsucc

theorem retry_success_at_attempt_N_witness :
    (1 ≤ 3 ∧ (∀ k, 1 ≤ k → k < 3 → isOk (opFlaky k) = false)
      ∧ opFlaky 3 = .ok 7)
    ∧ retry_async_safe 3 1 2 opFlaky
        = ⟨.ok 7, 3, (List.range (3 - 1)).map (fun i => (1 : ℚ) * 2 ^ i)⟩ := by
  have hfail : ∀ k, 1 ≤ k → k < 3 → isOk (opFlaky k) = false := by
    intro k h1 h2
    interval_cases k <;> rfl
  exact ⟨⟨by omega, hfail, rfl⟩,
    retry_success_at_attempt_N 3 1 2 opFlaky 7 (by omega) hfail rfl⟩

/-- **C2.** For every `maxAttempts = N ≥ 1` and every operation that fails
on all `N` attempts, the wrapper fails with exactly the error value raised
by attempt `N` — the very same error (`last_err`), not wrapped in any
other error. -/
theorem retry_all_fail_raises_last_error {E A : Type} (N : Nat) (d b : ℚ)
    (op : Nat → Except E A) (errf : Nat → E) (hN : 1 ≤ N)
    (hfail : ∀ k, op k = .error (errf k)) :
    retry_async_safe N d b op
      = ⟨.error (some (errf N)), N,
         (List.range (N - 1)).map (fun i => d * b ^ i)⟩ := by
  unfold retry_async_safe
  have h := retryAux_allFail op b errf N 1 d none hN (fun j _ => hfail (1 + j))
  have hidx : 1 + (N - 1) = N := by omega
  rw [h, hidx]

theorem retry_all_fail_raises_last_error_witness :
    (1 ≤ 2 ∧ ∀ k, opStatus k = .error (.httpStatusError (500 + k)))
    ∧ retry_async_safe 2 1 3 opStatus
        = ⟨.error (some (.httpStatusError 502)), 2,
           (List.range (2 - 1)).map (fun i => (1 : ℚ) * 3 ^ i)⟩ :=
  ⟨⟨by omega, fun _ => rfl⟩,
   retry_all_fail_raises_last_error 2 1 3 opStatus
     (fun k => .httpStatusError (500 + k)) (by omega) (fun _ => rfl)⟩

/-- **C3 counterexample.** The decorator accepts out-of-range parameters
(`retries = 0`, `delay = -1`, `backoff = 0`) without any configuration
error at construction; the failure only appears when the wrapped function
is called, as `raise last_err` with `last_err = None` (a `TypeError`,
modelled as `Except.error none`), after zero attempts. -/
theorem retry_config_not_validated_cex :
    retry_async_safe 0 (-1) 0 (fun _ => (.ok 42 : Except APIErr Nat))
      = ⟨.error none, 0, []⟩ := rfl

/-- **C3 (amended).** `retry_async_safe` performs no validation of its
parameters: any `retries`, `delay` and `backoff` values are accepted at
construction without error.  With `retries < 1` (modelled `retries = 0`)
the wrapped call performs zero attempts and raises the initial
`last_err = None` (a `TypeError`) at call time — not a configuration
error at construction; a negative `delay` or a `backoff < 1` is used
unchanged in the schedule. -/
theorem retry_out_of_range_attempts_raises_none {E A : Type} (d b : ℚ)
    (op : Nat → Except E A) :
    retry_async_safe 0 d b op = ⟨.error none, 0, []⟩ := rfl

/-- **C5.** In every run, the delay slept between attempt `k` and attempt
`k + 1` equals `delay * backoff ^ (k - 1)`: the recorded sleeps are
exactly `delay, delay*backoff, delay*backoff², …`, and there are only
`calls - 1` of them, so no sleep occurs after the final attempt. -/
theorem retry_sleep_schedule {E A : Type} (N : Nat) (d b : ℚ)
    (op : Nat → Except E A) :
    (retry_async_safe N d b op).sleeps
      = (List.range ((retry_async_safe N d b op).calls - 1)).map
          (fun i => d * b ^ i) :=
  retryAux_sleeps_schedule op b N 1 d none

/-- **C9.** The retry policy performs no error-kind filtering: two
operations with the same success/failure pattern but different error
kinds make the same number of attempts with the same delay schedule, and
whichever error a run surfaces is exactly the error of its last attempt. -/
theorem retry_no_error_kind_filtering {E A : Type} (N : Nat) (d b : ℚ)
    (op1 op2 : Nat → Except E A) (hN : 1 ≤ N)
    (hp : ∀ k, isOk (op1 k) = isOk (op2 k)) :
    (retry_async_safe N d b op1).calls = (retry_async_safe N d b op2).calls
    ∧ (retry_async_safe N d b op1).sleeps = (retry_async_safe N d b op2).sleeps
    ∧ (∀ e, (retry_async_safe N d b op1).outcome = .error (some e) →
        op1 ((retry_async_safe N d b op1).calls) = .error e)
    ∧ (∀ e, (retry_async_safe N d b op2).outcome = .error (some e) →
        op2 ((retry_async_safe N d b op2).calls) = .error e) := by
  obtain ⟨hc, hs⟩ := retryAux_pattern op1 op2 b hp N 1 d none none
  refine ⟨hc, hs, ?_, ?_⟩
  · intro e he
    have h1 := retryAux_error_is_last op1 b N 1 d none e hN he
    have hpos := retryAux_calls_pos op1 b N 1 d none hN
    have hidx : 1 + ((retryAux op1 b N 1 d none).calls - 1)
        = (retryAux op1 b N 1 d none).calls := by omega
    rw [hidx] at h1
    exact h1
  · intro e he
    have h2 := retryAux_error_is_last op2 b N 1 d none e hN he
    have hpos := retryAux_calls_pos op2 b N 1 d none hN
    have hidx : 1 + ((retryAux op2 b N 1 d none).calls - 1)
        = (retryAux op2 b N 1 d none).calls := by omega
    rw [hidx] at h2
    exact h2

theorem retry_no_error_kind_filtering_witness :
    (1 ≤ 2 ∧ ∀ k, isOk (opTransportFail k) = isOk (opDecodeFail k))
    ∧ ((retry_async_safe 2 1 2 opTransportFail).calls
        = (retry_async_safe 2 1 2 opDecodeFail).calls
      ∧ (retry_async_safe 2 1 2 opTransportFail).sleeps
          = (retry_async_safe 2 1 2 opDecodeFail).sleeps
      ∧ (∀ e, (retry_async_safe 2 1 2 opTransportFail).outcome = .error (some e) →
          opTransportFail ((retry_async_safe 2 1 2 opTransportFail).calls) = .error e)
      ∧ (∀ e, (retry_async_safe 2 1 2 opDecodeFail).outcome = .error (some e) →
          opDecodeFail ((retry_async_safe 2 1 2 opDecodeFail).calls) = .error e)) :=
  ⟨⟨by omega, fun _ => rfl⟩,
   retry_no_error_kind_filtering 2 1 2 opTransportFail opDecodeFail
     (by omega) (fun _ => rfl)⟩

/-! ### Claim theorems about the client and the orchestrator -/

/-- Fail-fast behaviour of `gather5`: the first failing task's error, in
submission order, is propagated exactly as raised. -/
theorem gather5_first_error {E A : Type} (o1 o2 o3 o4 o5 : Except E A) (e : E) :
    (o1 = .error e → gather5 o1 o2 o3 o4 o5 = .error e)
  ∧ (isOk o1 = true → o2 = .error e → gather5 o1 o2 o3 o4 o5 = .error e)
  ∧ (isOk o1 = true → isOk o2 = true → o3 = .error e →
      gather5 o1 o2 o3 o4 o5 = .error e)
  ∧ (isOk o1 = true → isOk o2 = true → isOk o3 = true → o4 = .error e →
      gather5 o1 o2 o3 o4 o5 = .error e)
  ∧ (isOk o1 = true → isOk o2 = true → isOk o3 = true → isOk o4 = true →
      o5 = .error e → gather5 o1 o2 o3 o4 o5 = .error e) := by
  cases o1 <;> cases o2 <;> cases o3 <;> cases o4 <;> cases o5 <;>
    simp [gather5, isOk]

/-- **C4 counterexample.** When the second gathered call exhausts its
retries, `fetch_demo` fails with exactly the transport error raised by
that call's final attempt — the raw error object itself, not an
`AggregateFailure` (no such wrapper exists anywhere in the code:
`asyncio.gather` re-raises the original exception). -/
theorem fetch_demo_no_aggregate_wrapper_cex :
    (fetch_demo (tOk 1) tBoom (tOk 3) (tOk 4) (tOk 5)).1
      = .error (some (.transportError "boom")) := rfl

/-- **C4 (amended).** Whenever any of the gathered calls fails after
retry exhaustion, `fetch_demo` fails with the original causing error
propagated unchanged — the first failure in submission order, not
wrapped in any aggregate error; the error is never swallowed and no
partial result tuple is returned. -/
theorem fetch_demo_error_propagated_unwrapped {A : Type}
    (t1 t2 t3 t4 t5 : Nat → Except APIErr A) (e : Option APIErr) :
    ((retry_async_safe 3 (3 / 10) 2 t1).outcome = .error e →
        (fetch_demo t1 t2 t3 t4 t5).1 = .error e)
  ∧ (isOk (retry_async_safe 3 (3 / 10) 2 t1).outcome = true →
      (retry_async_safe 3 (3 / 10) 2 t2).outcome = .error e →
        (fetch_demo t1 t2 t3 t4 t5).1 = .error e)
  ∧ (isOk (retry_async_safe 3 (3 / 10) 2 t1).outcome = true →
      isOk (retry_async_safe 3 (3 / 10) 2 t2).outcome = true →
      (retry_async_safe 3 (3 / 10) 2 t3).outcome = .error e →
        (fetch_demo t1 t2 t3 t4 t5).1 = .error e)
  ∧ (isOk (retry_async_safe 3 (3 / 10) 2 t1).outcome = true →
      isOk (retry_async_safe 3 (3 / 10) 2 t2).outcome = true →
      isOk (retry_async_safe 3 (3 / 10) 2 t3).outcome = true →
      (retry_async_safe 3 (3 / 10) 2 t4).outcome = .error e →
        (fetch_demo t1 t2 t3 t4 t5).1 = .error e)
  ∧ (isOk (retry_async_safe 3 (3 / 10) 2 t1).outcome = true →
      isOk (retry_async_safe 3 (3 / 10) 2 t2).outcome = true →
      isOk (retry_async_safe 3 (3 / 10) 2 t3).outcome = true →
      isOk (retry_async_safe 3 (3 / 10) 2 t4).outcome = true →
      (retry_async_safe 3 (3 / 10) 2 t5).outcome = .error e →
        (fetch_demo t1 t2 t3 t4 t5).1 = .error e) :=
  gather5_first_error _ _ _ _ _ e

theorem fetch_demo_error_propagated_unwrapped_witness :
    (isOk (retry_async_safe 3 (3 / 10) 2 (tOk 1)).outcome = true
      ∧ (retry_async_safe 3 (3 / 10) 2 tBoom).outcome
          = .error (some (.transportError "boom")))
    ∧ (fetch_demo (tOk 1) tBoom (tOk 3) (tOk 4) (tOk 5)).1
        = .error (some (.transportError "boom")) :=
  ⟨⟨rfl, rfl⟩,
   (fetch_demo_error_propagated_unwrapped (tOk 1) tBoom (tOk 3) (tOk 4)
     (tOk 5) (some (.transportError "boom"))).2.1 rfl rfl⟩

/-- **C6.** On every exit path of `fetch_demo` — for all transport
behaviours of the five calls, succeeding or failing — each client's
connection is released exactly once and in strictly reverse order of
opening (inner handle 1 before outer handle 0); `__aexit__` always
leaves the handle absent, and a second `__aexit__` on an already-closed
client releases nothing. -/
theorem fetch_demo_scope_discipline {A : Type}
    (t1 t2 t3 t4 t5 : Nat → Except APIErr A) :
    (fetch_demo t1 t2 t3 t4 t5).2
        = [Event.opened 0, Event.opened 1, Event.close 1, Event.close 0]
  ∧ (∀ c : APIClient, (APIClient.aexit c).1.client = none)
  ∧ (∀ c : APIClient,
      APIClient.aexit (APIClient.aexit c).1 = ((APIClient.aexit c).1, [])) := by
  refine ⟨rfl, ?_, ?_⟩
  · intro c
    obtain ⟨bu, t0, cl⟩ := c
    cases cl <;> rfl
  · intro c
    obtain ⟨bu, t0, cl⟩ := c
    cases cl <;> rfl

/-- **C7.** Calling `get_json` while the client's scope is not open
(`_client is None`, which holds both before `__aenter__` and after
`__aexit__`) always fails with the `RuntimeError("APIClient not
initialized…")` lifecycle error and performs no transport request (the
result is independent of the transport); it never silently succeeds or
no-ops. -/
theorem get_json_requires_open_scope {A : Type} (c : APIClient)
    (t t' : Nat → Except APIErr A) (h : c.client = none) :
    (get_json c t).outcome = .error (some .notInit)
  ∧ get_json c t = get_json c t' := by
  have key : ∀ (u : Nat → Except APIErr A),
      get_json c u = ⟨.error (some .notInit), 3, [3 / 10, 3 / 10 * 2]⟩ := by
    intro u
    simp only [get_json, h]
    rfl
  exact ⟨by rw [key t], (key t).trans (key t').symm⟩

theorem get_json_requires_open_scope_witness :
    (APIClient.init "https://example.com" 10).client = none
    ∧ ((get_json (APIClient.init "https://example.com" 10) (tOk 1)).outcome
          = .error (some .notInit)
      ∧ get_json (APIClient.init "https://example.com" 10) (tOk 1)
          = get_json (APIClient.init "https://example.com" 10) (tOk 2)) :=
  ⟨rfl, get_json_requires_open_scope (APIClient.init "https://example.com" 10)
    (tOk 1) (tOk 2) rfl⟩

/-- **C8.** When all five gathered calls of `fetch_demo` succeed, the
result is the 5-tuple whose `i`-th component is the result of the `i`-th
submitted call, index-aligned to submission order. -/
theorem fetch_demo_gather_index_aligned {A : Type}
    (t1 t2 t3 t4 t5 : Nat → Except APIErr A) (v1 v2 v3 v4 v5 : A)
    (h1 : (retry_async_safe 3 (3 / 10) 2 t1).outcome = .ok v1)
    (h2 : (retry_async_safe 3 (3 / 10) 2 t2).outcome = .ok v2)
    (h3 : (retry_async_safe 3 (3 / 10) 2 t3).outcome = .ok v3)
    (h4 : (retry_async_safe 3 (3 / 10) 2 t4).outcome = .ok v4)
    (h5 : (retry_async_safe 3 (3 / 10) 2 t5).outcome = .ok v5) :
    (fetch_demo t1 t2 t3 t4 t5).1 = .ok (v1, v2, v3, v4, v5) := by
  show gather5 (retry_async_safe 3 (3 / 10) 2 t1).outcome
      (retry_async_safe 3 (3 / 10) 2 t2).outcome
      (retry_async_safe 3 (3 / 10) 2 t3).outcome
      (retry_async_safe 3 (3 / 10) 2 t4).outcome
      (retry_async_safe 3 (3 / 10) 2 t5).outcome = .ok (v1, v2, v3, v4, v5)
  rw [h1, h2, h3, h4, h5]
  rfl

theorem fetch_demo_gather_index_aligned_witness :
    ((retry_async_safe 3 (3 / 10) 2 (tOk 11)).outcome = .ok 11
      ∧ (retry_async_safe 3 (3 / 10) 2 (tOk 12)).outcome = .ok 12
      ∧ (retry_async_safe 3 (3 / 10) 2 (tOk 13)).outcome = .ok 13
      ∧ (retry_async_safe 3 (3 / 10) 2 (tOk 14)).outcome = .ok 14
      ∧ (retry_async_safe 3 (3 / 10) 2 (tOk 15)).outcome = .ok 15)
    ∧ (fetch_demo (tOk 11) (tOk 12) (tOk 13) (tOk 14) (tOk 15)).1
        = .ok (11, 12, 13, 14, 15) :=
  ⟨⟨rfl, rfl, rfl, rfl, rfl⟩,
   fetch_demo_gather_index_aligned (tOk 11) (tOk 12) (tOk 13) (tOk 14)
     (tOk 15) 11 12 13 14 15 rfl rfl rfl rfl rfl⟩

/-- `dropWhile` skips a leading block of elements satisfying the
predicate. -/
theorem dropWhile_replicate_append {α : Type} (p : α → Bool) (c : α)
    (hc : p c = true) :
    ∀ (k : Nat) (l : List α),
      (List.replicate k c ++ l).dropWhile p = l.dropWhile p := by
  intro k
  induction k with
  | zero => intro l; rfl
  | succ n ih =>
    intro l
    rw [List.replicate_succ, List.cons_append, List.dropWhile_cons]
    simp only [hc, if_true]
    exact ih l

/-- **C10.** `APIClient.__init__` normalizes the base URL by stripping
all trailing `'/'` characters: a client constructed from a base URL with
any number of extra trailing slashes is identical, as a state, to the
client constructed from the same URL without them (and therefore behaves
identically on every subsequent operation). -/
theorem init_normalizes_trailing_slashes (s : String) (k : Nat) (t : ℚ) :
    APIClient.init (s ++ ⟨List.replicate k '/'⟩) t = APIClient.init s t := by
  unfold APIClient.init rstripSlashes
  have hd : (s ++ (⟨List.replicate k '/'⟩ : String)).data
      = s.data ++ List.replicate k '/' := rfl
  rw [hd, List.reverse_append, List.reverse_replicate,
    dropWhile_replicate_append (fun c => c == '/') '/' rfl k s.data.reverse]

end ApiFixer
